import Mathlib

/-!
# Verification of the elf_diff settings-resolution engine

Shallow embedding of `src/elf_diff/settings.py`: the parameter schema,
the driver-file loader, the command-line merge, positional-binaries
reconciliation, utility resolution, post-merge validation and the
parameter-template writer, together with theorems settling the frozen
claims about this code.

Modelling conventions:
* Python scalar values (None / bool / int / float / str) are embedded as
  the inductive type `Value`; Python truthiness is `Value.truthy`.
* The mutable `Settings` object is a `SettingsState`: a total map from
  attribute name to `Value` plus the `mass_report_members` list.
  `setattr` is pointwise functional update.
* Python exceptions raised during resolution become `Except SettingsError`;
  the error constructors carry the exact message text the source formats
  (including its copy-paste "Old binary filename redundantly defined" for
  both redundancy branches and the "Unnable" typo). Non-fatal warnings
  (the `warning(...)` call in `findUtility`) are returned as a list of
  message strings rather than printed.
* The ambient operating system (file predicates, `shutil.which`,
  `os.name`, file contents, YAML parsing of a named driver file) is a
  record `Env` of oracles.
-/

set_option maxRecDepth 40000

/-- Embedded Python scalar value (the value space of settings attributes,
schema defaults, YAML scalars and parsed command-line values). -/
inductive Value where
  | vNone : Value
  | vBool (b : Bool) : Value
  | vInt (n : Int) : Value
  | vFloat (q : ℚ) : Value
  | vStr (s : String) : Value
deriving DecidableEq, Repr

/-- Python truthiness of an embedded value (`bool(x)`). -/
def Value.truthy : Value → Bool
  | .vNone => false
  | .vBool b => b
  | .vInt n => decide (n ≠ 0)
  | .vFloat q => decide (q ≠ 0)
  | .vStr s => decide (s ≠ "")

/-- The string carried by a value, for the places where the Python code
uses a settings attribute as a `str` path (a non-string there would be a
Python `TypeError`; theorems about those code paths pin the relevant
attribute to `vStr`). -/
def Value.strD : Value → String
  | .vStr s => s
  | _ => ""

/-- Python `str(x)` for the values occurring as schema defaults, as used
by `'{name}: "{value}"'.format(...)` in `writeParameterTemplateFile`.
The only float appearing in the schema is `0.5` (whose Python `str` is
"0.5"); other rationals are rendered as `num/den` and are not exercised. -/
def Value.pyStr : Value → String
  | .vNone => "None"
  | .vBool true => "True"
  | .vBool false => "False"
  | .vInt n => toString n
  | .vFloat q => if q = mkRat 1 2 then "0.5" else toString q.num ++ "/" ++ toString q.den
  | .vStr s => s

/-- `Parameter` from settings.py: one schema descriptor. Field order
follows the `__init__` keyword order of the source (`alias` is a Lean
keyword, so that field is embedded as `aliasName`). -/
structure Parameter where
  name : String
  description : String
  default : Value
  deprecated_alias : Option String
  aliasName : Option String
  no_cmd_line : Bool
  is_flag : Bool
  action : Option String
deriving DecidableEq, Repr

/-- `Parameter(name, description)` with all keyword defaults. -/
def param (name description : String) : Parameter :=
  ⟨name, description, Value.vNone, none, none, false, false, none⟩

/-- `Parameter(name, description, default=default)`. -/
def paramD (name description : String) (default : Value) : Parameter :=
  ⟨name, description, default, none, none, false, false, none⟩

/-- `Parameter(name, description, default=False, is_flag=True)`. -/
def flagParam (name description : String) : Parameter :=
  ⟨name, description, Value.vBool false, none, none, false, true, none⟩

/-- `Parameter(name, description, no_cmd_line=True)`. -/
def noCmdLineParam (name description : String) : Parameter :=
  ⟨name, description, Value.vNone, none, none, true, false, none⟩

/-- `Parameter(name, description, action="append")`. -/
def appendParam (name description : String) : Parameter :=
  ⟨name, description, Value.vNone, none, none, false, false, some "append"⟩

/-- `GROUPED_PARAMETERS` from settings.py, in dict insertion order. -/
def GROUPED_PARAMETERS : List (String × List Parameter) :=
  [ ("Binaries",
      [ param "old_binary_filename" "The old version of the elf binary.",
        param "new_binary_filename" "The new version of the elf binary.",
        paramD "language"
          "A hint about the language that the elf was compiled from (choices: c++)."
          (Value.vStr "c++"),
        param "source_prefix"
          "A path prefix to remove from old and new source files (overridden by [old|new]_source_prefix)",
        param "old_source_prefix" "A path prefix to remove from old source files",
        param "new_source_prefix" "A path prefix to remove from new source files" ]),
    ("Report Content",
      [ param "project_title" "A project title to use for all reports.",
        param "old_alias"
          "An alias string that is supposed to be used to reference the old binary version.",
        param "new_alias"
          "An alias string that is supposed to be used to reference the new binary version.",
        param "old_info_file"
          "A text file that contains information about the old binary version.",
        param "new_info_file"
          "A text file that contains information about the new binary version.",
        paramD "build_info"
          "A string that contains build information that is to be added to the report."
          (Value.vStr ""),
        paramD "similarity_threshold"
          "A threshold value between 0 and 1 above which two compared symbols are considered being similar"
          (Value.vFloat (mkRat 1 2)),
        flagParam "skip_symbol_similarities"
          "If this flag is provided, symbol similarities (which are quite expensive to determine) are skipped",
        flagParam "consider_equal_sized_identical"
          "If this flag is defined, symbols of equal size are considered as identical (and thus ignored in most cases).",
        flagParam "skip_details"
          "If this flag is defined, report details are displayed",
        noCmdLineParam "html_template_dir"
          "A directory that contains template html files. Defaults to elf_diff's own html directory." ]),
    ("Binutils",
      [ paramD "bin_dir" "A place where the binutils live." Value.vNone,
        paramD "bin_prefix" "A prefix that is added to binutils executables." (Value.vStr ""),
        paramD "objdump_command" "Full path to the objdump untility." Value.vNone,
        paramD "nm_command" "Full path to the nm untility." Value.vNone,
        paramD "readelf_command" "Full path to the readelf untility." Value.vNone,
        paramD "size_command" "Full path to the size untility." Value.vNone ]),
    ("Mangling",
      [ paramD "old_mangling_file" "Full path to a mangling file for old elf." Value.vNone,
        paramD "new_mangling_file" "Full path to a mangling file for new elf." Value.vNone ]),
    ("Output",
      [ param "html_file" "The filename of the generated single page HTML report.",
        param "html_dir" "The directory of the generated multi page HTML report.",
        param "pdf_file" "The filename of the generated PDF report.",
        param "yaml_file" "The filename of the generated YAML report.",
        param "json_file" "The filename of the generated JSON report.",
        param "txt_file" "The filename of the generated text based report.",
        param "xml_file" "The filename of the generated XML report.",
        flagParam "dump_document_structure"
          "If this flag is provided, the elf_diff document structure is written to stdout",
        flagParam "mass_report"
          "Forces a mass report being generated. Otherwise the decision whether to generate a mass report is based on the binary_pairs found in the driver file." ]),
    ("Symbol Selection",
      [ paramD "symbol_selection_regex"
          "A regex that is applied to select symbols to be considered for both, the old and the new elf file"
          Value.vNone,
        paramD "symbol_selection_regex_old"
          "A regex that is applied to select symbols to be considered for the old elf file"
          Value.vNone,
        paramD "symbol_selection_regex_new"
          "A regex that is applied to select symbols to be considered for the new elf file"
          Value.vNone,
        paramD "symbol_exclusion_regex"
          "A regex that is applied to select symbols to be excluded for both, the old and the new elf file"
          Value.vNone,
        paramD "symbol_exclusion_regex_old"
          "A regex that is applied to select symbols to be excluded for the old elf file"
          Value.vNone,
        paramD "symbol_exclusion_regex_new"
          "A regex that is applied to select symbols to be excluded for the new elf file"
          Value.vNone ]),
    ("Plugins",
      [ appendParam "load_plugin"
          "Loads and parametrizes a plugin. Example: --load_plugin some/path/to/module.py;PluginClass;foo1=bar2;foo2=bar2",
        appendParam "load_default_plugin"
          "Loads and parametrizes a default plugin. Example --load_default_plugin html_export;single_page=False;template_dir=some_directory",
        flagParam "list_default_plugins" "Writes a list of default plugins to stdout" ]),
    ("Driver Files",
      [ param "driver_file" "A yaml file that contains settings and driver information.",
        param "driver_template_file"
          "A yaml file that is generated at the end of the run. It contains default parameters if no report was generated or, otherwise, the parameters that were read." ]) ]

/-- `UNGROUPED_PARAMETERS` from settings.py. -/
def UNGROUPED_PARAMETERS : List Parameter :=
  [ flagParam "debug"
      "If enabled, elf_diff runs in debugging mode and outputs extended information if something goes wrong." ]

/-- `PARAMETERS`: all grouped parameters in group order followed by the
ungrouped ones, exactly as the module-initialization loops build it. -/
def PARAMETERS : List Parameter :=
  (GROUPED_PARAMETERS.map Prod.snd).flatten ++ UNGROUPED_PARAMETERS

/-- Modelled from the spec: `BinaryPairSettings` (module
`elf_diff/binary_pair_settings.py` is not among the provided sources).
Per spec section 3 it is a plain record of the three required fields of a
`binary_pairs` driver-file entry, stored as given. -/
structure BinaryPairSettings where
  short_name : Value
  old_binary : Value
  new_binary : Value
deriving DecidableEq, Repr

/-- The mutable `Settings` object: attribute values by name, plus the
`mass_report_members` list. -/
structure SettingsState where
  values : String → Value
  massReportMembers : List BinaryPairSettings

/-- `setattr(self, k, v)`. -/
def SettingsState.set (s : SettingsState) (k : String) (v : Value) : SettingsState :=
  { s with values := fun n => if n = k then v else s.values n }

theorem SettingsState.set_values_eq (s : SettingsState) (k : String) (v : Value) :
    (s.set k v).values k = v := by
  simp [SettingsState.set]

theorem SettingsState.set_values_ne (s : SettingsState) {k n : String} (v : Value)
    (h : n ≠ k) : (s.set k v).values n = s.values n := by
  simp [SettingsState.set, h]

theorem SettingsState.set_mass (s : SettingsState) (k : String) (v : Value) :
    (s.set k v).massReportMembers = s.massReportMembers := rfl

/-- First-match lookup in a key/value list (Python `dict` access for the
dictionaries we embed: parsed YAML mappings and parsed argparse output). -/
def lookupKey (m : List (String × Value)) (k : String) : Option Value :=
  (m.find? (fun kv => kv.1 == k)).map (fun kv => kv.2)

/-- A parsed YAML driver file: its top-level scalar entries and, when the
`binary_pairs` key is present, the list of its (mapping-shaped) elements. -/
structure DriverFile where
  entries : List (String × Value)
  binary_pairs : Option (List (List (String × Value)))

/-- Parsed command-line arguments: the per-parameter destination values
(absent key = attribute not present on the argparse namespace) and the
positional `binaries` list. -/
structure CmdLineArgs where
  values : List (String × Value)
  binaries : List String

/-- Ambient-system oracles: `os.path.isfile`, `os.access(..., X_OK)`,
`shutil.which`, `os.name`, file contents for `open(...).read()`, and the
parsed YAML content of a driver file named by path. -/
structure Env where
  isfile : String → Bool
  isExecutable : String → Bool
  which : String → Option String
  osName : String
  fileContents : String → String
  driverYaml : String → DriverFile

/-- The exceptions the resolution engine raises, with the exact message
text the source formats (where a claim depends on the text). -/
inductive SettingsError where
  | missingField (field : String) (pairIndex : Nat) : SettingsError
  | redundantBinaryDefinition (message : String) : SettingsError
  | invalidBinaryArgumentCount (message : String) : SettingsError
  | binaryNotFound (message : String) : SettingsError
  | infoFileNotFound (message : String) : SettingsError
  | utilityNotFound (name : String) : SettingsError
deriving DecidableEq, Repr

/-! ## Settings construction: defaults, driver file, command line -/

/-- `Settings._presetDefaults`: `self.mass_report_members = []`, then
`setattr(self, parameter.name, parameter.default)` for every parameter. -/
def presetDefaults (s : SettingsState) : SettingsState :=
  PARAMETERS.foldl (fun acc parameter => acc.set parameter.name parameter.default)
    { s with massReportMembers := [] }

/-- One iteration of the driver-file parameter loop of
`Settings._readDriverFile`: overwrite the attribute when the parameter
name is a top-level key of the parsed YAML document. -/
def driverApplyStep (d : DriverFile) (acc : SettingsState) (parameter : Parameter) :
    SettingsState :=
  match lookupKey d.entries parameter.name with
  | some v => acc.set parameter.name v
  | none => acc

/-- The full driver-file parameter loop. -/
def applyDriverParams (s : SettingsState) (d : DriverFile) : SettingsState :=
  PARAMETERS.foldl (driverApplyStep d) s

/-- Python `not x` applied to the result of `dict.get` (`None` when the
key is absent, otherwise the value's falsiness). -/
def pyNotOpt : Option Value → Bool
  | none => true
  | some v => !v.truthy

/-- The `binary_pairs` loop of `Settings._readDriverFile`: validate each
element in document order with a 1-based running index, failing on the
first falsy-or-absent required field, and collect the valid elements in
order. (In the source the elements preceding a failing one have already
been appended when the exception aborts the process; the aborted state is
unobservable, so the failing run returns only the error.) -/
def readBinaryPairs :
    List (List (String × Value)) → Nat → Except SettingsError (List BinaryPairSettings)
  | [], _ => Except.ok []
  | data_set :: rest, bin_pair_id =>
    if pyNotOpt (lookupKey data_set "short_name") then
      Except.error (SettingsError.missingField "short_name" bin_pair_id)
    else if pyNotOpt (lookupKey data_set "old_binary") then
      Except.error (SettingsError.missingField "old_binary" bin_pair_id)
    else if pyNotOpt (lookupKey data_set "new_binary") then
      Except.error (SettingsError.missingField "new_binary" bin_pair_id)
    else
      (readBinaryPairs rest (bin_pair_id + 1)).map
        (fun bps =>
          { short_name := (lookupKey data_set "short_name").getD Value.vNone,
            old_binary := (lookupKey data_set "old_binary").getD Value.vNone,
            new_binary := (lookupKey data_set "new_binary").getD Value.vNone } :: bps)

/-- `Settings._readDriverFile`, applied to the parsed YAML document of
`self.driver_file`: apply every schema-matching top-level key, then, when
a `binary_pairs` key is present, validate and append its elements to
`mass_report_members`. -/
def readDriverFile (s : SettingsState) (d : DriverFile) :
    Except SettingsError SettingsState :=
  let s1 := applyDriverParams s d
  match d.binary_pairs with
  | none => Except.ok s1
  | some pairs =>
    (readBinaryPairs pairs 1).map
      (fun bps => { s1 with massReportMembers := s1.massReportMembers ++ bps })

/-- One iteration of the parameter loop of
`Settings._considerCommandLineArgs`: skip `no_cmd_line` parameters and
write the parsed value only when the namespace has the attribute and the
value differs from the schema default. -/
def cmdLineApplyStep (a : CmdLineArgs) (acc : SettingsState) (parameter : Parameter) :
    SettingsState :=
  if parameter.no_cmd_line then acc
  else
    match lookupKey a.values parameter.name with
    | some value => if value ≠ parameter.default then acc.set parameter.name value else acc
    | none => acc

/-- The full command-line parameter loop. -/
def applyCmdLineParams (s : SettingsState) (a : CmdLineArgs) : SettingsState :=
  PARAMETERS.foldl (cmdLineApplyStep a) s

/-- The positional-binaries reconciliation at the end of
`Settings._considerCommandLineArgs` (`len(cmd_line_args.binaries)` equal
to 0, 2, or anything else). Both redundancy branches raise the same
message, as the source does. -/
def reconcileBinaries (s : SettingsState) (binaries : List String) :
    Except SettingsError SettingsState :=
  match binaries with
  | [] => Except.ok s
  | [b0, b1] =>
    if s.values "old_binary_filename" ≠ Value.vNone then
      Except.error
        (SettingsError.redundantBinaryDefinition "Old binary filename redundantly defined")
    else
      let s2 := s.set "old_binary_filename" (Value.vStr b0)
      if s2.values "new_binary_filename" ≠ Value.vNone then
        Except.error
          (SettingsError.redundantBinaryDefinition "Old binary filename redundantly defined")
      else Except.ok (s2.set "new_binary_filename" (Value.vStr b1))
  | _ =>
    Except.error
      (SettingsError.invalidBinaryArgumentCount "Please specify either none or two binaries")

/-- `Settings._considerCommandLineArgs`: the parameter loop followed by
the positional reconciliation. -/
def considerCommandLineArgs (s : SettingsState) (a : CmdLineArgs) :
    Except SettingsError SettingsState :=
  reconcileBinaries (applyCmdLineParams s a) a.binaries

/-! ## Utility resolution -/

/-- `os.path.join` for the shapes this code produces (a directory joined
with a relative basename): insert a separator unless the directory
already ends in one. -/
def osPathJoin (d b : String) : String :=
  if d.data.getLast? = some '/' then d ++ b else d ++ "/" ++ b

/-- The platform-dependent executable-extension candidate order computed
in `Settings.findUtility` from `os.name`. -/
def exeExtensionCandidates (osName : String) : List String :=
  if osName = "nt" then [".exe", ""] else ["", ".exe"]

/-- `Settings._findUtilityInBinDir`: for each candidate extension, if a
`bin_dir` is configured test `bin_dir / (bin_prefix + name + extension)`
and accept the first regular executable file. -/
def findUtilityInBinDir (env : Env) (s : SettingsState) (name : String)
    (exe_extensions : List String) : Option String :=
  exe_extensions.findSome? (fun exe_extension =>
    let basename := (s.values "bin_prefix").strD ++ name ++ exe_extension
    match s.values "bin_dir" with
    | Value.vNone => none
    | bd =>
      let command := osPathJoin bd.strD basename
      if env.isfile command && env.isExecutable command then some command else none)

/-- `Settings._findUtilityUsingWhich`: for each candidate extension, look
`bin_prefix + name + extension` up on the process search path and accept
the first hit that is a regular executable file. -/
def findUtilityUsingWhich (env : Env) (s : SettingsState) (name : String)
    (exe_extensions : List String) : Option String :=
  exe_extensions.findSome? (fun exe_extension =>
    let basename := (s.values "bin_prefix").strD ++ name ++ exe_extension
    match env.which basename with
    | none => none
    | some command =>
      if env.isfile command && env.isExecutable command then some command else none)

/-- The fallback tiers of `Settings.findUtility` after the explicit
override check: bin-dir tier, then search-path tier, then the fatal
`UtilityNotFound` error. A successful tier stores the found path in the
`{name}_command` attribute. -/
def findUtilitySearchTiers (env : Env) (s : SettingsState) (name : String) :
    Except SettingsError SettingsState :=
  let command_name := name ++ "_command"
  let exe_extensions := exeExtensionCandidates env.osName
  match findUtilityInBinDir env s name exe_extensions with
  | some command => Except.ok (s.set command_name (Value.vStr command))
  | none =>
    match findUtilityUsingWhich env s name exe_extensions with
    | some command => Except.ok (s.set command_name (Value.vStr command))
    | none => Except.error (SettingsError.utilityNotFound name)

/-- `Settings.findUtility`: accept an explicitly configured command path
when it is a regular executable file; otherwise warn (non-fatally) when
one was configured, and fall through to the search tiers. The first
component collects the warning messages `warning(...)` would print. -/
def findUtility (env : Env) (s : SettingsState) (name : String) :
    List String × Except SettingsError SettingsState :=
  let command_name := name ++ "_command"
  match s.values command_name with
  | Value.vNone => ([], findUtilitySearchTiers env s name)
  | command =>
    if env.isfile command.strD && env.isExecutable command.strD then ([], Except.ok s)
    else
      (["Unable to find predefined " ++ command_name ++ " = " ++ command.strD],
        findUtilitySearchTiers env s name)

/-! ## Post-merge validation and initialization -/

/-- `Settings._validateBinaries`: a configured (truthy) binary filename
that is not a regular file is fatal. -/
def validateBinaries (env : Env) (s : SettingsState) : Except SettingsError SettingsState :=
  if (s.values "old_binary_filename").truthy
      && !env.isfile (s.values "old_binary_filename").strD then
    Except.error (SettingsError.binaryNotFound
      ("Old binary '" ++ (s.values "old_binary_filename").strD
        ++ "' is not a file or cannot be found"))
  else if (s.values "new_binary_filename").truthy
      && !env.isfile (s.values "new_binary_filename").strD then
    Except.error (SettingsError.binaryNotFound
      ("New binary '" ++ (s.values "new_binary_filename").strD
        ++ "' is not a file or cannot be found"))
  else Except.ok s

/-- The `old_info_file` half of `Settings._prepareInfoFiles`. -/
def prepareOldInfo (env : Env) (s : SettingsState) : Except SettingsError SettingsState :=
  if (s.values "old_info_file").truthy then
    if env.isfile (s.values "old_info_file").strD then
      Except.ok (s.set "old_binary_info"
        (Value.vStr (env.fileContents (s.values "old_info_file").strD)))
    else
      Except.error (SettingsError.infoFileNotFound
        ("Unable to find old info file '" ++ (s.values "old_info_file").strD ++ "'"))
  else Except.ok (s.set "old_binary_info" (Value.vStr ""))

/-- The `new_info_file` half of `Settings._prepareInfoFiles`. -/
def prepareNewInfo (env : Env) (s : SettingsState) : Except SettingsError SettingsState :=
  if (s.values "new_info_file").truthy then
    if env.isfile (s.values "new_info_file").strD then
      Except.ok (s.set "new_binary_info"
        (Value.vStr (env.fileContents (s.values "new_info_file").strD)))
    else
      Except.error (SettingsError.infoFileNotFound
        ("Unable to find new info file '" ++ (s.values "new_info_file").strD ++ "'"))
  else Except.ok (s.set "new_binary_info" (Value.vStr ""))

/-- `Settings._prepareInfoFiles`: the old block then the new block. -/
def prepareInfoFiles (env : Env) (s : SettingsState) : Except SettingsError SettingsState :=
  (prepareOldInfo env s).bind (prepareNewInfo env)

/-- `Settings._prepareAlias`: an unset (`None`) alias defaults to the
corresponding resolved binary filename. -/
def prepareAlias (s : SettingsState) : SettingsState :=
  let s1 :=
    if s.values "old_alias" = Value.vNone then
      s.set "old_alias" (s.values "old_binary_filename")
    else s
  if s1.values "new_alias" = Value.vNone then
    s1.set "new_alias" (s1.values "new_binary_filename")
  else s1

/-- `Settings._validateAndInitSettings` (the diagnostic `print` calls are
omitted; `findUtility` warnings are dropped here as they only print). -/
def validateAndInitSettings (env : Env) (s : SettingsState) :
    Except SettingsError SettingsState := do
  let s ← validateBinaries env s
  let s ← (findUtility env s "objdump").2
  let s ← (findUtility env s "nm").2
  let s ← (findUtility env s "readelf").2
  let s ← (findUtility env s "size").2
  let s ← prepareInfoFiles env s
  Except.ok (prepareAlias s)

/-- The merge stage of `Settings.__init__`: preset defaults, force the
four binary/alias attributes to `None`, load the driver file when the
parsed command line names one, then apply command-line overrides and the
positional reconciliation. -/
def settingsMerge (env : Env) (a : CmdLineArgs) : Except SettingsError SettingsState :=
  let s0 := presetDefaults { values := fun _ => Value.vNone, massReportMembers := [] }
  let s0 :=
    ((((s0.set "old_binary_filename" Value.vNone).set "new_binary_filename"
        Value.vNone).set "old_alias" Value.vNone).set "new_alias" Value.vNone)
  let withDriver : Except SettingsError SettingsState :=
    match lookupKey a.values "driver_file" with
    | some v =>
      if v.truthy then readDriverFile (s0.set "driver_file" v) (env.driverYaml v.strD)
      else Except.ok s0
    | none => Except.ok s0
  withDriver.bind (fun s1 => considerCommandLineArgs s1 a)

/-- `Settings.__init__` end to end: merge stage followed by
`_validateAndInitSettings`. -/
def settingsInit (env : Env) (a : CmdLineArgs) : Except SettingsError SettingsState :=
  (settingsMerge env a).bind (validateAndInitSettings env)

/-! ## Template writer -/

/-- The `name: "value"` assignments `Settings.writeParameterTemplateFile`
emits, one per schema parameter in schema order. Every value is rendered
with Python `str` inside double quotes, so as YAML each assignment
denotes the string `str(value)`; the comment and header lines carry no
YAML content. -/
def writeParameterTemplateEntries (s : SettingsState) (output_actual_values : Bool) :
    List (String × Value) :=
  PARAMETERS.map (fun parameter =>
    let value : Value :=
      if output_actual_values then
        if (s.values parameter.name).truthy then s.values parameter.name
        else parameter.default
      else parameter.default
    (parameter.name, Value.vStr value.pyStr))

/-- The driver-file-shaped document denoted by the output of
`Settings.writeParameterTemplateFile` (it has every schema parameter as a
top-level key and no `binary_pairs` key). -/
def writeParameterTemplateFile (s : SettingsState) (output_actual_values : Bool) :
    DriverFile :=
  { entries := writeParameterTemplateEntries s output_actual_values, binary_pairs := none }

/-- The settings state every resolution starts from. -/
def initialSettings : SettingsState :=
  { values := fun _ => Value.vNone, massReportMembers := [] }

/-- Schema defaults only (the state right after `_presetDefaults`). -/
def defaultSettings : SettingsState :=
  presetDefaults initialSettings

/-! ## Helper lemmas: parameter-indexed folds over the settings state -/

/-- Generic shape of the three schema-driven sweeps (`_presetDefaults`,
the driver-file loop, the command-line loop): each parameter contributes
at most one `setattr` on its own name, the written value given by `g`. -/
def setStep (g : Parameter → Option Value) (acc : SettingsState) (q : Parameter) :
    SettingsState :=
  match g q with
  | some v => acc.set q.name v
  | none => acc

theorem setStep_values_of_ne (g : Parameter → Option Value) (acc : SettingsState)
    (q : Parameter) {k : String} (h : k ≠ q.name) :
    (setStep g acc q).values k = acc.values k := by
  unfold setStep
  cases g q with
  | none => rfl
  | some v => exact acc.set_values_ne v h

theorem setStep_foldl_preserve (g : Parameter → Option Value) (l : List Parameter)
    (s : SettingsState) (k : String)
    (h : ∀ q ∈ l, q.name = k → g q = none) :
    (l.foldl (setStep g) s).values k = s.values k := by
  induction l generalizing s with
  | nil => rfl
  | cons q rest ih =>
    rw [List.foldl_cons, ih _ (fun r hr => h r (List.mem_cons_of_mem q hr))]
    by_cases hq : q.name = k
    · subst hq
      unfold setStep
      rw [h q (List.mem_cons_self q rest) rfl]
    · exact setStep_values_of_ne g s q (fun hk => hq hk.symm)

theorem setStep_foldl_lastset (g : Parameter → Option Value) (l : List Parameter)
    (s : SettingsState) (p : Parameter) (v : Value)
    (hnd : (l.map Parameter.name).Nodup) (hp : p ∈ l) (hv : g p = some v) :
    (l.foldl (setStep g) s).values p.name = v := by
  induction l generalizing s with
  | nil => cases hp
  | cons q rest ih =>
    rw [List.map_cons, List.nodup_cons] at hnd
    rcases List.mem_cons.mp hp with hpq | hprest
    · subst hpq
      rw [List.foldl_cons]
      rw [setStep_foldl_preserve g rest _ p.name
        (fun r hr hname => absurd (hname ▸ List.mem_map_of_mem Parameter.name hr) hnd.1)]
      unfold setStep
      rw [hv]
      exact (setStep g s p).set_values_eq p.name v ▸ SettingsState.set_values_eq s p.name v
    · rw [List.foldl_cons]
      exact ih (setStep g s q) hnd.2 hprest

theorem setStep_foldl_mass (g : Parameter → Option Value) (l : List Parameter)
    (s : SettingsState) :
    (l.foldl (setStep g) s).massReportMembers = s.massReportMembers := by
  induction l generalizing s with
  | nil => rfl
  | cons q rest ih =>
    rw [List.foldl_cons, ih]
    unfold setStep
    cases g q with
    | none => rfl
    | some v => rfl

/-- The parameter names of the schema are pairwise distinct (the
developer-time invariant the spec states in section 4.1). -/
theorem parameters_names_nodup : (PARAMETERS.map Parameter.name).Nodup := by decide

theorem parameters_name_inj {p q : Parameter} (hp : p ∈ PARAMETERS)
    (hq : q ∈ PARAMETERS) (h : p.name = q.name) : p = q :=
  List.inj_on_of_nodup_map parameters_names_nodup hp hq h

/-- `_presetDefaults` as a `setStep` fold. -/
theorem presetDefaults_eq_setStep (s : SettingsState) :
    presetDefaults s
      = PARAMETERS.foldl (setStep (fun q => some q.default))
          { s with massReportMembers := [] } := rfl

/-- The driver-file parameter loop as a `setStep` fold. -/
theorem applyDriverParams_eq_setStep (s : SettingsState) (d : DriverFile) :
    applyDriverParams s d
      = PARAMETERS.foldl (setStep (fun q => lookupKey d.entries q.name)) s := rfl

/-- The value a command-line parameter loop iteration writes, if any. -/
def cmdArgWrite (a : CmdLineArgs) (q : Parameter) : Option Value :=
  if q.no_cmd_line then none
  else
    match lookupKey a.values q.name with
    | some value => if value ≠ q.default then some value else none
    | none => none

/-- The command-line parameter loop as a `setStep` fold. -/
theorem applyCmdLineParams_eq_setStep (s : SettingsState) (a : CmdLineArgs) :
    applyCmdLineParams s a = PARAMETERS.foldl (setStep (cmdArgWrite a)) s := by
  unfold applyCmdLineParams
  refine List.foldl_ext _ _ s (fun acc q _ => ?_)
  unfold cmdLineApplyStep cmdArgWrite setStep
  by_cases hn : q.no_cmd_line
  · simp [hn]
  · simp only [hn, if_false, Bool.false_eq_true]
    cases lookupKey a.values q.name with
    | none => rfl
    | some value =>
      by_cases hv : value = q.default
      · simp [hv]
      · simp [hv]

/-! ## Helper lemmas: binary_pairs validation -/

/-- A `binary_pairs` element that passes all three field checks. -/
def pairValid (e : List (String × Value)) : Bool :=
  !pyNotOpt (lookupKey e "short_name") && !pyNotOpt (lookupKey e "old_binary")
    && !pyNotOpt (lookupKey e "new_binary")

/-- The job descriptor built from a valid `binary_pairs` element. -/
def mkBinaryPair (e : List (String × Value)) : BinaryPairSettings :=
  { short_name := (lookupKey e "short_name").getD Value.vNone,
    old_binary := (lookupKey e "old_binary").getD Value.vNone,
    new_binary := (lookupKey e "new_binary").getD Value.vNone }

theorem pairValid_decompose {e : List (String × Value)} (h : pairValid e = true) :
    pyNotOpt (lookupKey e "short_name") = false
      ∧ pyNotOpt (lookupKey e "old_binary") = false
      ∧ pyNotOpt (lookupKey e "new_binary") = false := by
  have h' := h
  simp only [pairValid, Bool.and_eq_true, Bool.not_eq_true'] at h'
  exact ⟨h'.1.1, h'.1.2, h'.2⟩

theorem readBinaryPairs_all_valid (pairs : List (List (String × Value)))
    (h : ∀ e ∈ pairs, pairValid e = true) (i : Nat) :
    readBinaryPairs pairs i = Except.ok (pairs.map mkBinaryPair) := by
  induction pairs generalizing i with
  | nil => rfl
  | cons e rest ih =>
    obtain ⟨h1, h2, h3⟩ := pairValid_decompose (h e (List.mem_cons_self e rest))
    rw [readBinaryPairs, h1, h2, h3]
    simp only [Bool.false_eq_true, if_false,
      ih (fun x hx => h x (List.mem_cons_of_mem e hx)) (i + 1), Except.map]
    rfl

theorem readBinaryPairs_append_valid (pre rest : List (List (String × Value)))
    (h : ∀ e ∈ pre, pairValid e = true) (i : Nat) :
    readBinaryPairs (pre ++ rest) i
      = (readBinaryPairs rest (i + pre.length)).map
          (fun l => pre.map mkBinaryPair ++ l) := by
  induction pre generalizing i with
  | nil =>
    simp only [List.nil_append, List.length_nil, Nat.add_zero, List.map_nil]
    cases readBinaryPairs rest i with
    | ok l => simp [Except.map]
    | error err => simp [Except.map]
  | cons e pre' ih =>
    obtain ⟨h1, h2, h3⟩ := pairValid_decompose (h e (List.mem_cons_self e pre'))
    rw [List.cons_append, readBinaryPairs, h1, h2, h3]
    simp only [Bool.false_eq_true, if_false,
      ih (fun x hx => h x (List.mem_cons_of_mem e hx)) (i + 1)]
    have hlen : i + 1 + pre'.length = i + (e :: pre').length := by
      simp [List.length_cons]; omega
    rw [hlen]
    cases readBinaryPairs rest (i + (e :: pre').length) with
    | ok l => simp [Except.map, mkBinaryPair]
    | error err => simp [Except.map]

/-! ## Claim C3 -/

/-- C3: every element of the driver file's `binary_pairs` sequence is
validated in document order with 1-based indexing — a missing
`short_name` fails with `MissingField("short_name", pairIndex)`, then a
missing `old_binary` with `MissingField("old_binary", pairIndex)`, then a
missing `new_binary` with `MissingField("new_binary", pairIndex)` — and
every element passing all three checks is appended to
`mass_report_members` in document order. -/
theorem spec_c3_binary_pairs_validation :
    (∀ pairs : List (List (String × Value)), (∀ e ∈ pairs, pairValid e = true) →
      readBinaryPairs pairs 1 = Except.ok (pairs.map mkBinaryPair))
  ∧ (∀ pre e post, (∀ x ∈ pre, pairValid x = true) →
      pyNotOpt (lookupKey e "short_name") = true →
      readBinaryPairs (pre ++ e :: post) 1
        = Except.error (SettingsError.missingField "short_name" (pre.length + 1)))
  ∧ (∀ pre e post, (∀ x ∈ pre, pairValid x = true) →
      pyNotOpt (lookupKey e "short_name") = false →
      pyNotOpt (lookupKey e "old_binary") = true →
      readBinaryPairs (pre ++ e :: post) 1
        = Except.error (SettingsError.missingField "old_binary" (pre.length + 1)))
  ∧ (∀ pre e post, (∀ x ∈ pre, pairValid x = true) →
      pyNotOpt (lookupKey e "short_name") = false →
      pyNotOpt (lookupKey e "old_binary") = false →
      pyNotOpt (lookupKey e "new_binary") = true →
      readBinaryPairs (pre ++ e :: post) 1
        = Except.error (SettingsError.missingField "new_binary" (pre.length + 1)))
  ∧ (∀ (s : SettingsState) (d : DriverFile) pairs,
      d.binary_pairs = some pairs → (∀ e ∈ pairs, pairValid e = true) →
      (readDriverFile s d).toOption.map (fun t => t.massReportMembers)
        = some (s.massReportMembers ++ pairs.map mkBinaryPair)) := by
  refine ⟨fun pairs h => readBinaryPairs_all_valid pairs h 1, ?_, ?_, ?_, ?_⟩
  · intro pre e post h h1
    rw [readBinaryPairs_append_valid pre (e :: post) h 1, readBinaryPairs, h1]
    simp [Except.map, Nat.add_comm]
  · intro pre e post h h1 h2
    rw [readBinaryPairs_append_valid pre (e :: post) h 1, readBinaryPairs, h1, h2]
    simp [Except.map, Nat.add_comm]
  · intro pre e post h h1 h2 h3
    rw [readBinaryPairs_append_valid pre (e :: post) h 1, readBinaryPairs, h1, h2, h3]
    simp [Except.map, Nat.add_comm]
  · intro s d pairs hbp h
    have hsome : readDriverFile s d
        = (readBinaryPairs pairs 1).map
            (fun bps =>
              { applyDriverParams s d with
                massReportMembers := (applyDriverParams s d).massReportMembers ++ bps }) := by
      unfold readDriverFile
      rw [hbp]
    rw [hsome, readBinaryPairs_all_valid pairs h 1]
    have hmass : (applyDriverParams s d).massReportMembers = s.massReportMembers := by
      rw [applyDriverParams_eq_setStep]
      exact setStep_foldl_mass _ PARAMETERS s
    simp [Except.map, Except.toOption, hmass]

/-- Witness for C3: the spec's own example — a driver file whose single
`binary_pairs` element has `short_name` and `old_binary` but no
`new_binary` fails with `MissingField("new_binary", 1)`; and two valid
elements are collected in document order. -/
theorem spec_c3_binary_pairs_validation_witness :
    readBinaryPairs [[("short_name", Value.vStr "p1"), ("old_binary", Value.vStr "a")]] 1
      = Except.error (SettingsError.missingField "new_binary" 1)
  ∧ readBinaryPairs
      [[("short_name", Value.vStr "p1"), ("old_binary", Value.vStr "a"),
        ("new_binary", Value.vStr "b")],
       [("short_name", Value.vStr "p2"), ("old_binary", Value.vStr "c"),
        ("new_binary", Value.vStr "d")]] 1
      = Except.ok
        [⟨Value.vStr "p1", Value.vStr "a", Value.vStr "b"⟩,
         ⟨Value.vStr "p2", Value.vStr "c", Value.vStr "d"⟩] := by
  constructor
  · have := spec_c3_binary_pairs_validation.2.2.2.1 []
      [("short_name", Value.vStr "p1"), ("old_binary", Value.vStr "a")] []
      (by intro x hx; cases hx) (by decide) (by decide) (by decide)
    simpa using this
  · have := spec_c3_binary_pairs_validation.1
      [[("short_name", Value.vStr "p1"), ("old_binary", Value.vStr "a"),
        ("new_binary", Value.vStr "b")],
       [("short_name", Value.vStr "p2"), ("old_binary", Value.vStr "c"),
        ("new_binary", Value.vStr "d")]] (by decide)
    simpa using this

/-! ## Claim C10 -/

/-- C10: a `binary_pairs` element whose `short_name`, `old_binary` or
`new_binary` is present but falsy (for example the empty string) fails
with the same `MissingField` error, for the same 1-based index, as if the
field were absent: the validation is by truthiness, not key presence. -/
theorem spec_c10_falsy_fields_rejected :
    ∀ (e : List (String × Value)) (rest : List (List (String × Value))) (i : Nat)
      (v : Value),
    (lookupKey e "short_name" = some v → v.truthy = false →
      readBinaryPairs (e :: rest) i
        = Except.error (SettingsError.missingField "short_name" i))
  ∧ (lookupKey e "short_name" = none →
      readBinaryPairs (e :: rest) i
        = Except.error (SettingsError.missingField "short_name" i))
  ∧ (pyNotOpt (lookupKey e "short_name") = false →
      lookupKey e "old_binary" = some v → v.truthy = false →
      readBinaryPairs (e :: rest) i
        = Except.error (SettingsError.missingField "old_binary" i))
  ∧ (pyNotOpt (lookupKey e "short_name") = false →
      pyNotOpt (lookupKey e "old_binary") = false →
      lookupKey e "new_binary" = some v → v.truthy = false →
      readBinaryPairs (e :: rest) i
        = Except.error (SettingsError.missingField "new_binary" i)) := by
  intro e rest i v
  refine ⟨?_, ?_, ?_, ?_⟩
  · intro hl hv
    rw [readBinaryPairs]
    simp [pyNotOpt, hl, hv]
  · intro hl
    rw [readBinaryPairs]
    simp [pyNotOpt, hl]
  · intro h1 hl hv
    rw [readBinaryPairs, h1]
    simp [pyNotOpt, hl, hv]
  · intro h1 h2 hl hv
    rw [readBinaryPairs, h1, h2]
    simp [pyNotOpt, hl, hv]

/-- Witness for C10: an element whose `short_name` is present but the
empty string fails exactly like an absent `short_name`. -/
theorem spec_c10_falsy_fields_rejected_witness :
    readBinaryPairs [[("short_name", Value.vStr ""), ("old_binary", Value.vStr "a"),
        ("new_binary", Value.vStr "b")]] 1
      = Except.error (SettingsError.missingField "short_name" 1) :=
  (spec_c10_falsy_fields_rejected
      [("short_name", Value.vStr ""), ("old_binary", Value.vStr "a"),
        ("new_binary", Value.vStr "b")] [] 1 (Value.vStr "")).1
    (by decide) (by decide)

/-! ## Claims C6 and C7: positional-binaries reconciliation -/

/-- C6: with exactly two positional binaries, an already non-null
`old_binary_filename` fails with `RedundantBinaryDefinition`, otherwise
positional[0] is assigned; then an already non-null
`new_binary_filename` fails with `RedundantBinaryDefinition`, otherwise
positional[1] is assigned — and both failure paths produce the identical
error (same category, same message text, nothing distinguishing which
filename was redundant). -/
theorem spec_c6_redundant_binary_definition :
    ∀ (s : SettingsState) (b0 b1 : String),
    (s.values "old_binary_filename" ≠ Value.vNone →
      reconcileBinaries s [b0, b1]
        = Except.error (SettingsError.redundantBinaryDefinition
            "Old binary filename redundantly defined"))
  ∧ (s.values "old_binary_filename" = Value.vNone →
      s.values "new_binary_filename" ≠ Value.vNone →
      reconcileBinaries s [b0, b1]
        = Except.error (SettingsError.redundantBinaryDefinition
            "Old binary filename redundantly defined"))
  ∧ (s.values "old_binary_filename" = Value.vNone →
      s.values "new_binary_filename" = Value.vNone →
      reconcileBinaries s [b0, b1]
        = Except.ok ((s.set "old_binary_filename" (Value.vStr b0)).set
            "new_binary_filename" (Value.vStr b1))) := by
  intro s b0 b1
  have hkeys : ("new_binary_filename" : String) ≠ "old_binary_filename" := by decide
  refine ⟨?_, ?_, ?_⟩
  · intro hold
    simp [reconcileBinaries, hold]
  · intro hold hnew
    have h2 : (s.set "old_binary_filename" (Value.vStr b0)).values "new_binary_filename"
        = s.values "new_binary_filename" :=
      s.set_values_ne _ hkeys
    simp [reconcileBinaries, hold, h2, hnew]
  · intro hold hnew
    have h2 : (s.set "old_binary_filename" (Value.vStr b0)).values "new_binary_filename"
        = s.values "new_binary_filename" :=
      s.set_values_ne _ hkeys
    simp [reconcileBinaries, hold, h2, hnew]

/-- Witness for C6: with `--old_binary_filename a.elf` already applied
and positional binaries `x.elf y.elf`, reconciliation fails with the
redundancy error; and with both names unset the two positionals are
assigned in order. -/
theorem spec_c6_redundant_binary_definition_witness :
    reconcileBinaries (initialSettings.set "old_binary_filename" (Value.vStr "a.elf"))
        ["x.elf", "y.elf"]
      = Except.error (SettingsError.redundantBinaryDefinition
          "Old binary filename redundantly defined")
  ∧ reconcileBinaries initialSettings ["a.elf", "b.elf"]
      = Except.ok ((initialSettings.set "old_binary_filename" (Value.vStr "a.elf")).set
          "new_binary_filename" (Value.vStr "b.elf")) :=
  ⟨(spec_c6_redundant_binary_definition
      (initialSettings.set "old_binary_filename" (Value.vStr "a.elf")) "x.elf" "y.elf").1
    (by decide),
   (spec_c6_redundant_binary_definition initialSettings "a.elf" "b.elf").2.2
    (by decide) (by decide)⟩

/-- C7: a positional binary count other than 0 and 2 (for example 1 or 3)
fails with `InvalidBinaryArgumentCount`, while a count of 0 leaves the
settings untouched (the named binary parameters stand as already
resolved). -/
theorem spec_c7_invalid_binary_argument_count :
    ∀ (s : SettingsState) (binaries : List String),
    (binaries.length ≠ 0 → binaries.length ≠ 2 →
      reconcileBinaries s binaries
        = Except.error (SettingsError.invalidBinaryArgumentCount
            "Please specify either none or two binaries"))
  ∧ (binaries = [] → reconcileBinaries s binaries = Except.ok s) := by
  intro s binaries
  constructor
  · intro h0 h2
    match binaries, h0, h2 with
    | [b0], _, _ => rfl
    | b0 :: b1 :: b2 :: rest, _, _ => rfl
  · intro h
    subst h
    rfl

/-- Witness for C7: one positional binary and three positional binaries
fail with the count error; zero positionals change nothing. -/
theorem spec_c7_invalid_binary_argument_count_witness :
    reconcileBinaries initialSettings ["a.elf"]
      = Except.error (SettingsError.invalidBinaryArgumentCount
          "Please specify either none or two binaries")
  ∧ reconcileBinaries initialSettings ["a.elf", "b.elf", "c.elf"]
      = Except.error (SettingsError.invalidBinaryArgumentCount
          "Please specify either none or two binaries")
  ∧ reconcileBinaries initialSettings [] = Except.ok initialSettings :=
  ⟨(spec_c7_invalid_binary_argument_count initialSettings ["a.elf"]).1
      (by decide) (by decide),
   (spec_c7_invalid_binary_argument_count initialSettings ["a.elf", "b.elf", "c.elf"]).1
      (by decide) (by decide),
   (spec_c7_invalid_binary_argument_count initialSettings []).2 rfl⟩

/-! ## Helper lemmas: merge-stage preservation -/

theorem presetDefaults_values (s : SettingsState) {p : Parameter} (hp : p ∈ PARAMETERS) :
    (presetDefaults s).values p.name = p.default := by
  rw [presetDefaults_eq_setStep]
  exact setStep_foldl_lastset _ _ _ p _ parameters_names_nodup hp rfl

theorem applyDriverParams_preserve (s : SettingsState) (d : DriverFile) (k : String)
    (hnone : lookupKey d.entries k = none) :
    (applyDriverParams s d).values k = s.values k := by
  rw [applyDriverParams_eq_setStep]
  exact setStep_foldl_preserve _ _ _ _ (fun q _ hname => by rw [hname, hnone])

theorem applyCmdLineParams_preserve (s : SettingsState) (a : CmdLineArgs) {p : Parameter}
    (hp : p ∈ PARAMETERS)
    (hargs : lookupKey a.values p.name = none ∨ lookupKey a.values p.name = some p.default) :
    (applyCmdLineParams s a).values p.name = s.values p.name := by
  rw [applyCmdLineParams_eq_setStep]
  refine setStep_foldl_preserve _ _ _ _ (fun q hq hname => ?_)
  have hqp : q = p := parameters_name_inj hq hp hname
  subst hqp
  rcases hargs with h | h <;> by_cases hn : q.no_cmd_line <;> simp [cmdArgWrite, hn, h]

theorem readDriverFile_none_eq (s : SettingsState) (d : DriverFile)
    (hbp : d.binary_pairs = none) :
    readDriverFile s d = Except.ok (applyDriverParams s d) := by
  unfold readDriverFile
  rw [hbp]

theorem readDriverFile_some_eq (s : SettingsState) (d : DriverFile)
    (pairs : List (List (String × Value))) (hbp : d.binary_pairs = some pairs) :
    readDriverFile s d
      = (readBinaryPairs pairs 1).map
          (fun bps =>
            { applyDriverParams s d with
              massReportMembers := (applyDriverParams s d).massReportMembers ++ bps }) := by
  unfold readDriverFile
  rw [hbp]

theorem readDriverFile_ok_values {s : SettingsState} {d : DriverFile} {t : SettingsState}
    (h : readDriverFile s d = Except.ok t) (k : String) :
    t.values k = (applyDriverParams s d).values k := by
  cases hbp : d.binary_pairs with
  | none =>
    rw [readDriverFile_none_eq s d hbp] at h
    cases h
    rfl
  | some pairs =>
    rw [readDriverFile_some_eq s d pairs hbp] at h
    cases hr : readBinaryPairs pairs 1 with
    | error err => rw [hr] at h; simp [Except.map] at h
    | ok bps =>
      rw [hr] at h
      simp only [Except.map, Except.ok.injEq] at h
      rw [← h]

theorem reconcileBinaries_ok_values {s : SettingsState} {bins : List String}
    {t : SettingsState} (h : reconcileBinaries s bins = Except.ok t) {k : String}
    (h1 : k ≠ "old_binary_filename") (h2 : k ≠ "new_binary_filename") :
    t.values k = s.values k := by
  match bins with
  | [] =>
    cases h
    rfl
  | [b0, b1] =>
    unfold reconcileBinaries at h
    by_cases hold : s.values "old_binary_filename" = Value.vNone
    · simp only [hold, ne_eq, not_true_eq_false, if_false, if_neg] at h
      by_cases hnew :
          ((s.set "old_binary_filename" (Value.vStr b0)).values "new_binary_filename")
            = Value.vNone
      · simp only [hnew, not_true_eq_false, if_neg, if_false] at h
        cases h
        rw [SettingsState.set_values_ne _ _ h2, SettingsState.set_values_ne _ _ h1]
      · simp [hnew] at h
    · simp [hold] at h
  | b0 :: b1 :: b2 :: rest =>
    cases h

theorem considerCommandLineArgs_ok_values {s : SettingsState} {a : CmdLineArgs}
    {t : SettingsState} (h : considerCommandLineArgs s a = Except.ok t) {p : Parameter}
    (hp : p ∈ PARAMETERS)
    (hargs : lookupKey a.values p.name = none ∨ lookupKey a.values p.name = some p.default)
    (h1 : p.name ≠ "old_binary_filename") (h2 : p.name ≠ "new_binary_filename") :
    t.values p.name = s.values p.name := by
  unfold considerCommandLineArgs at h
  rw [reconcileBinaries_ok_values h h1 h2]
  exact applyCmdLineParams_preserve s a hp hargs

theorem param_old_alias_default :
    ∀ p ∈ PARAMETERS, p.name = "old_alias" → p.default = Value.vNone := by decide

theorem param_new_alias_default :
    ∀ p ∈ PARAMETERS, p.name = "new_alias" → p.default = Value.vNone := by decide

theorem param_driver_file_default :
    ∀ p ∈ PARAMETERS, p.name = "driver_file" → p.default = Value.vNone := by decide

/-! ## Claim C2 -/

/-- C2: for a non-`no_cmd_line` parameter the command-line parameter loop
writes the parsed value into the settings exactly when it differs from
the parameter's schema default; a parsed value equal to the default
leaves the current (for example driver-file-supplied) value untouched. -/
theorem spec_c2_cli_override_only_if_differs :
    ∀ (s : SettingsState) (a : CmdLineArgs) (p : Parameter) (v : Value),
    p ∈ PARAMETERS → p.no_cmd_line = false → lookupKey a.values p.name = some v →
    ((v = p.default → (applyCmdLineParams s a).values p.name = s.values p.name)
  ∧ (v ≠ p.default → (applyCmdLineParams s a).values p.name = v)) := by
  intro s a p v hp hn hlook
  constructor
  · intro hv
    subst hv
    exact applyCmdLineParams_preserve s a hp (Or.inr hlook)
  · intro hv
    rw [applyCmdLineParams_eq_setStep]
    refine setStep_foldl_lastset _ _ _ p _ parameters_names_nodup hp ?_
    simp [cmdArgWrite, hn, hlook, hv]

/-- Witness for C2: a driver file set `mass_report` to true; a CLI value
equal to the schema default (false) does not override it, while a CLI
value true is written over the default state. -/
theorem spec_c2_cli_override_only_if_differs_witness :
    (applyCmdLineParams (defaultSettings.set "mass_report" (Value.vBool true))
        { values := [("mass_report", Value.vBool false)], binaries := [] }).values
        "mass_report"
      = Value.vBool true
  ∧ (applyCmdLineParams defaultSettings
        { values := [("mass_report", Value.vBool true)], binaries := [] }).values
        "mass_report"
      = Value.vBool true := by
  constructor
  · have := (spec_c2_cli_override_only_if_differs
        (defaultSettings.set "mass_report" (Value.vBool true))
        { values := [("mass_report", Value.vBool false)], binaries := [] }
        (flagParam "mass_report"
          "Forces a mass report being generated. Otherwise the decision whether to generate a mass report is based on the binary_pairs found in the driver file.")
        (Value.vBool false) (by decide) rfl rfl).1 rfl
    exact this.trans (by decide)
  · exact (spec_c2_cli_override_only_if_differs defaultSettings
        { values := [("mass_report", Value.vBool true)], binaries := [] }
        (flagParam "mass_report"
          "Forces a mass report being generated. Otherwise the decision whether to generate a mass report is based on the binary_pairs found in the driver file.")
        (Value.vBool true) (by decide) rfl rfl).2 (by decide)

/-! ## Claim C1: template write / driver-file load round trip -/

theorem writeTemplateEntries_false (s : SettingsState) :
    writeParameterTemplateEntries s false
      = PARAMETERS.map (fun q => (q.name, Value.vStr q.default.pyStr)) := rfl

theorem lookupKey_map_param (f : Parameter → Value) {l : List Parameter}
    (hnd : (l.map Parameter.name).Nodup) {p : Parameter} (hp : p ∈ l) :
    lookupKey (l.map (fun q => (q.name, f q))) p.name = some (f p) := by
  induction l with
  | nil => cases hp
  | cons q rest ih =>
    rw [List.map_cons, List.nodup_cons] at hnd
    rcases List.mem_cons.mp hp with rfl | hprest
    · unfold lookupKey
      rw [List.map_cons, List.find?_cons_of_pos _ (by simp)]
      rfl
    · have hne : ¬(q.name = p.name) := fun heq =>
        hnd.1 (heq ▸ List.mem_map_of_mem Parameter.name hprest)
      unfold lookupKey
      rw [List.map_cons, List.find?_cons_of_neg _ (by simp [hne])]
      exact ih hnd.2 hprest

/-- C1 (amended): loading the parameter template written with
`output_actual_values=False` back as a driver file yields, for every
schema parameter, the Python-`str` rendering of its schema default as a
YAML string — which equals the original default exactly when that
default is itself a string. -/
theorem spec_c1_template_round_trip_stringified :
    ∀ p ∈ PARAMETERS,
    (readDriverFile defaultSettings
        (writeParameterTemplateFile defaultSettings false)).toOption.map
        (fun t => t.values p.name)
      = some (Value.vStr p.default.pyStr)
  ∧ (∀ str, p.default = Value.vStr str →
      (readDriverFile defaultSettings
          (writeParameterTemplateFile defaultSettings false)).toOption.map
          (fun t => t.values p.name)
        = some p.default) := by
  intro p hp
  have hok : readDriverFile defaultSettings (writeParameterTemplateFile defaultSettings false)
      = Except.ok (applyDriverParams defaultSettings
          (writeParameterTemplateFile defaultSettings false)) :=
    readDriverFile_none_eq _ _ rfl
  have hlookup : lookupKey (writeParameterTemplateFile defaultSettings false).entries p.name
      = some (Value.vStr p.default.pyStr) := by
    show lookupKey (writeParameterTemplateEntries defaultSettings false) p.name = _
    rw [writeTemplateEntries_false]
    exact lookupKey_map_param (fun q => Value.vStr q.default.pyStr) parameters_names_nodup hp
  have hval : (applyDriverParams defaultSettings
        (writeParameterTemplateFile defaultSettings false)).values p.name
      = Value.vStr p.default.pyStr := by
    rw [applyDriverParams_eq_setStep]
    exact setStep_foldl_lastset _ _ _ p _ parameters_names_nodup hp hlookup
  constructor
  · rw [hok]
    simp [Except.toOption, hval]
  · intro str hstr
    rw [hok]
    simp [Except.toOption, hval, hstr, Value.pyStr]

/-- Counterexample for C1 as stated: after the write/load round trip the
boolean-defaulted `mass_report` holds the string "False" (not the boolean
default), the absent-defaulted `old_binary_filename` holds the string
"None" (not `None`), and the numeric-defaulted `similarity_threshold`
holds the string "0.5" (not the number 0.5). -/
theorem spec_c1_counterexample :
    (readDriverFile defaultSettings
        (writeParameterTemplateFile defaultSettings false)).toOption.map
        (fun t => t.values "mass_report") = some (Value.vStr "False")
  ∧ defaultSettings.values "mass_report" = Value.vBool false
  ∧ Value.vStr "False" ≠ Value.vBool false
  ∧ (readDriverFile defaultSettings
        (writeParameterTemplateFile defaultSettings false)).toOption.map
        (fun t => t.values "old_binary_filename") = some (Value.vStr "None")
  ∧ defaultSettings.values "old_binary_filename" = Value.vNone
  ∧ Value.vStr "None" ≠ Value.vNone
  ∧ (readDriverFile defaultSettings
        (writeParameterTemplateFile defaultSettings false)).toOption.map
        (fun t => t.values "similarity_threshold") = some (Value.vStr "0.5")
  ∧ defaultSettings.values "similarity_threshold" = Value.vFloat (mkRat 1 2)
  ∧ Value.vStr "0.5" ≠ Value.vFloat (mkRat 1 2) := by
  exact ⟨rfl, rfl, by decide, rfl, rfl, by decide, by decide, rfl, by decide⟩

/-- Witness for C1 (amended): the string-defaulted `language` parameter
does survive the round trip with its original default "c++". -/
theorem spec_c1_template_round_trip_stringified_witness :
    (readDriverFile defaultSettings
        (writeParameterTemplateFile defaultSettings false)).toOption.map
        (fun t => t.values "language") = some (Value.vStr "c++") :=
  (spec_c1_template_round_trip_stringified
      (paramD "language"
        "A hint about the language that the elf was compiled from (choices: c++)."
        (Value.vStr "c++"))
      (by decide)).2 "c++" rfl

/-! ## Claim C8: unmentioned parameters keep their schema defaults -/

/-- C8 (amended): through the merge stage (preset defaults, driver file,
command-line overrides, positional reconciliation) a schema parameter
that appears neither as a top-level driver-file key nor as a
command-line value different from its default, and is not one of the two
positionally reassignable binary filenames, still holds its schema
default. (The later post-merge stage may overwrite the four
`*_command` parameters and the aliases; see the counterexample.) -/
theorem spec_c8_merge_keeps_schema_default :
    ∀ (env : Env) (a : CmdLineArgs) (p : Parameter),
    p ∈ PARAMETERS →
    (∀ v, lookupKey a.values "driver_file" = some v → v.truthy = true →
      lookupKey (env.driverYaml v.strD).entries p.name = none) →
    (lookupKey a.values p.name = none ∨ lookupKey a.values p.name = some p.default) →
    p.name ≠ "old_binary_filename" → p.name ≠ "new_binary_filename" →
    (settingsMerge env a).toOption.map (fun s => s.values p.name)
      = (settingsMerge env a).toOption.map (fun _ => p.default) := by
  intro env a p hp hdrv hargs hob hnb
  suffices H : ∀ t, settingsMerge env a = Except.ok t → t.values p.name = p.default by
    cases hm : settingsMerge env a with
    | error err => rfl
    | ok t => simp [Except.toOption, H t hm]
  intro t ht
  unfold settingsMerge at ht
  set s0a := presetDefaults { values := fun _ => Value.vNone, massReportMembers := [] }
    with hs0a
  set s0 := ((((s0a.set "old_binary_filename" Value.vNone).set "new_binary_filename"
      Value.vNone).set "old_alias" Value.vNone).set "new_alias" Value.vNone) with hs0
  have hs0val : s0.values p.name = p.default := by
    by_cases hna : p.name = "new_alias"
    · rw [hs0, hna]
      rw [SettingsState.set_values_eq]
      exact (param_new_alias_default p hp hna).symm
    · rw [hs0, SettingsState.set_values_ne _ _ hna]
      by_cases hoa : p.name = "old_alias"
      · rw [hoa, SettingsState.set_values_eq]
        exact (param_old_alias_default p hp hoa).symm
      · rw [SettingsState.set_values_ne _ _ hoa, SettingsState.set_values_ne _ _ hnb,
          SettingsState.set_values_ne _ _ hob]
        exact presetDefaults_values _ hp
  cases hdf : lookupKey a.values "driver_file" with
  | none =>
    rw [hdf] at ht
    simp only [Except.bind] at ht
    rw [considerCommandLineArgs_ok_values ht hp hargs hob hnb]
    exact hs0val
  | some v =>
    rw [hdf] at ht
    by_cases hv : v.truthy
    · simp only [hv, if_true, Except.bind] at ht
      cases hrd : readDriverFile (s0.set "driver_file" v) (env.driverYaml v.strD) with
      | error err => rw [hrd] at ht; cases ht
      | ok s1 =>
        rw [hrd] at ht
        have hpn : p.name ≠ "driver_file" := by
          intro hdfn
          rcases hargs with h | h
          · rw [hdfn] at h
            rw [h] at hdf
            cases hdf
          · rw [hdfn] at h
            rw [h] at hdf
            cases hdf
            rw [param_driver_file_default p hp hdfn] at hv
            simp [Value.truthy] at hv
        have hs1 : s1.values p.name = p.default := by
          rw [readDriverFile_ok_values hrd,
            applyDriverParams_preserve _ _ _ (hdrv v hdf hv),
            SettingsState.set_values_ne _ _ hpn]
          exact hs0val
        rw [considerCommandLineArgs_ok_values ht hp hargs hob hnb]
        exact hs1
    · simp only [hv, if_false, Except.bind] at ht
      rw [considerCommandLineArgs_ok_values ht hp hargs hob hnb]
      exact hs0val

/-- A concrete POSIX-like environment: the four binutils exist under
/usr/bin, the search path finds them, no driver file content anywhere. -/
def envPosix : Env :=
  { isfile := fun p =>
      ["/usr/bin/objdump", "/usr/bin/nm", "/usr/bin/readelf", "/usr/bin/size"].contains p,
    isExecutable := fun p =>
      ["/usr/bin/objdump", "/usr/bin/nm", "/usr/bin/readelf", "/usr/bin/size"].contains p,
    which := fun basename => some ("/usr/bin/" ++ basename),
    osName := "posix",
    fileContents := fun _ => "",
    driverYaml := fun _ => { entries := [], binary_pairs := none } }

/-- A command line mentioning nothing: no flags, no positionals. -/
def argsEmpty : CmdLineArgs := { values := [], binaries := [] }

/-- Counterexample for C8 as stated: `objdump_command` is never mentioned
in any driver file or on the command line and is not touched by
positional reconciliation, yet the fully resolved settings value is the
discovered path "/usr/bin/objdump", not the schema default `None` —
post-merge utility resolution overwrites it. -/
theorem spec_c8_counterexample :
    (settingsInit envPosix argsEmpty).toOption.map (fun s => s.values "objdump_command")
      = some (Value.vStr "/usr/bin/objdump")
  ∧ lookupKey argsEmpty.values "objdump_command" = none
  ∧ argsEmpty.binaries = []
  ∧ paramD "objdump_command" "Full path to the objdump untility." Value.vNone ∈ PARAMETERS
  ∧ Value.vStr "/usr/bin/objdump" ≠ Value.vNone := by
  exact ⟨by decide, rfl, rfl, by decide, by decide⟩

/-- Witness for C8 (amended): in the same run the merge stage leaves the
never-mentioned `mass_report` at its schema default. -/
theorem spec_c8_merge_keeps_schema_default_witness :
    (settingsMerge envPosix argsEmpty).toOption.map (fun s => s.values "mass_report")
      = (settingsMerge envPosix argsEmpty).toOption.map (fun _ =>
          (flagParam "mass_report"
            "Forces a mass report being generated. Otherwise the decision whether to generate a mass report is based on the binary_pairs found in the driver file.").default) :=
  spec_c8_merge_keeps_schema_default envPosix argsEmpty
    (flagParam "mass_report"
      "Forces a mass report being generated. Otherwise the decision whether to generate a mass report is based on the binary_pairs found in the driver file.")
    (by decide) (fun v hv => nomatch hv) (Or.inl rfl) (by decide) (by decide)

/-! ## Claim C4: utility resolution fallback tiers -/

/-- C4: for a utility, an explicitly configured command path that is a
regular executable file is accepted as-is and the search stops (no
warning, settings unchanged); a configured path failing the check yields
exactly one non-fatal warning and the search continues through the
bin-dir tier and then the search-path tier; and when no tier yields a
regular executable file the resolution fails with `UtilityNotFound` for
that utility name. -/
theorem spec_c4_utility_resolution_fallback :
    ∀ (env : Env) (s : SettingsState) (name : String),
    (∀ c, s.values (name ++ "_command") = Value.vStr c →
      env.isfile c = true → env.isExecutable c = true →
      findUtility env s name = ([], Except.ok s))
  ∧ (∀ c, s.values (name ++ "_command") = Value.vStr c →
      (env.isfile c && env.isExecutable c) = false →
      findUtility env s name
        = (["Unable to find predefined " ++ (name ++ "_command") ++ " = " ++ c],
            findUtilitySearchTiers env s name))
  ∧ (s.values (name ++ "_command") = Value.vNone →
      findUtility env s name = ([], findUtilitySearchTiers env s name))
  ∧ (findUtilityInBinDir env s name (exeExtensionCandidates env.osName) = none →
      findUtilityUsingWhich env s name (exeExtensionCandidates env.osName) = none →
      findUtilitySearchTiers env s name
        = Except.error (SettingsError.utilityNotFound name))
  ∧ ((s.values (name ++ "_command") = Value.vNone
        ∨ ∃ c, s.values (name ++ "_command") = Value.vStr c
            ∧ (env.isfile c && env.isExecutable c) = false) →
      findUtilityInBinDir env s name (exeExtensionCandidates env.osName) = none →
      findUtilityUsingWhich env s name (exeExtensionCandidates env.osName) = none →
      (findUtility env s name).2 = Except.error (SettingsError.utilityNotFound name)) := by
  intro env s name
  have htiers : findUtilityInBinDir env s name (exeExtensionCandidates env.osName) = none →
      findUtilityUsingWhich env s name (exeExtensionCandidates env.osName) = none →
      findUtilitySearchTiers env s name
        = Except.error (SettingsError.utilityNotFound name) := by
    intro hbd hw
    simp only [findUtilitySearchTiers, hbd, hw]
  refine ⟨?_, ?_, ?_, htiers, ?_⟩
  · intro c hc hf hx
    simp [findUtility, hc, Value.strD, hf, hx]
  · intro c hc hfx
    simp [findUtility, hc, Value.strD, hfx]
  · intro hc
    simp [findUtility, hc]
  · intro hcfg hbd hw
    rcases hcfg with hc | ⟨c, hc, hfx⟩
    · simp [findUtility, hc, htiers hbd hw]
    · simp [findUtility, hc, Value.strD, hfx, htiers hbd hw]

/-- An environment in which no tier can find anything. -/
def envNoTools : Env :=
  { isfile := fun _ => false,
    isExecutable := fun _ => false,
    which := fun _ => none,
    osName := "posix",
    fileContents := fun _ => "",
    driverYaml := fun _ => { entries := [], binary_pairs := none } }

/-- Defaults with an explicitly configured but invalid objdump path. -/
def sBadObjdump : SettingsState :=
  defaultSettings.set "objdump_command" (Value.vStr "/bad/objdump")

/-- Witness for C4: an invalid configured path produces exactly the
warning and the search continues; with every tier empty the resolution
ends in `UtilityNotFound("objdump")`. -/
theorem spec_c4_utility_resolution_fallback_witness :
    findUtility envNoTools sBadObjdump "objdump"
      = (["Unable to find predefined " ++ ("objdump" ++ "_command") ++ " = "
            ++ "/bad/objdump"],
          findUtilitySearchTiers envNoTools sBadObjdump "objdump")
  ∧ findUtilitySearchTiers envNoTools sBadObjdump "objdump"
      = Except.error (SettingsError.utilityNotFound "objdump") :=
  ⟨(spec_c4_utility_resolution_fallback envNoTools sBadObjdump "objdump").2.1
      "/bad/objdump" (by decide) (by decide),
   (spec_c4_utility_resolution_fallback envNoTools sBadObjdump "objdump").2.2.2.1
      (by decide) (by decide)⟩

/-! ## Claim C5: platform-dependent extension order -/

/-- C5: the extension candidate order is `.exe` then "" on the Windows
platform and "" then `.exe` everywhere else; consequently on a
non-Windows platform with `bin_dir=/tools`, empty `bin_prefix`, an
executable regular file /tools/objdump and no configured
`objdump_command`, resolution returns /tools/objdump — for every
possible search-path oracle, i.e. without consulting the search path. -/
theorem spec_c5_extension_order :
    (∀ osName, osName = "nt" → exeExtensionCandidates osName = [".exe", ""])
  ∧ (∀ osName, osName ≠ "nt" → exeExtensionCandidates osName = ["", ".exe"])
  ∧ (∀ (env : Env) (s : SettingsState),
      env.osName ≠ "nt" →
      s.values "bin_dir" = Value.vStr "/tools" →
      s.values "bin_prefix" = Value.vStr "" →
      s.values "objdump_command" = Value.vNone →
      env.isfile "/tools/objdump" = true →
      env.isExecutable "/tools/objdump" = true →
      findUtility env s "objdump"
        = ([], Except.ok (s.set "objdump_command" (Value.vStr "/tools/objdump")))) := by
  refine ⟨fun osName h => by simp [exeExtensionCandidates, h],
    fun osName h => by simp [exeExtensionCandidates, h], ?_⟩
  intro env s hos hbd hbp hoc hf hx
  have hexts : exeExtensionCandidates env.osName = ["", ".exe"] := by
    simp [exeExtensionCandidates, hos]
  have hpath : osPathJoin (Value.vStr "/tools").strD
      ((Value.vStr "").strD ++ "objdump" ++ "") = "/tools/objdump" := by decide
  have hbin : findUtilityInBinDir env s "objdump" ["", ".exe"] = some "/tools/objdump" := by
    simp only [findUtilityInBinDir, List.findSome?, hbd, hbp, hpath, hf, hx,
      Bool.and_self, if_true]
  have hkey : ("objdump" ++ "_command" : String) = "objdump_command" := rfl
  simp only [findUtility, findUtilitySearchTiers, hkey, hoc, hexts, hbin]

/-- Witness for C5: a concrete non-Windows environment with
/tools/objdump present; the search-path oracle is deliberately one that
would resolve anything, and is not consulted. -/
def envTools : Env :=
  { isfile := fun p => p == "/tools/objdump",
    isExecutable := fun p => p == "/tools/objdump",
    which := fun basename => some ("/elsewhere/" ++ basename),
    osName := "posix",
    fileContents := fun _ => "",
    driverYaml := fun _ => { entries := [], binary_pairs := none } }

/-- Defaults plus `bin_dir=/tools` (as a driver file or flag would set). -/
def sBinDirTools : SettingsState :=
  defaultSettings.set "bin_dir" (Value.vStr "/tools")

theorem spec_c5_extension_order_witness :
    findUtility envTools sBinDirTools "objdump"
      = ([], Except.ok (sBinDirTools.set "objdump_command"
          (Value.vStr "/tools/objdump"))) :=
  spec_c5_extension_order.2.2 envTools sBinDirTools (by decide) (by decide) (by decide)
    (by decide) (by decide) (by decide)

/-! ## Claim C9: info files and alias defaulting -/

/-- C9: a set (truthy) `old_info_file`/`new_info_file` has its full
contents read into `old_binary_info`/`new_binary_info`, fails with
`InfoFileNotFound` when it is not a readable regular file, and the info
field defaults to the empty string when the parameter is unset; then an
unset (`None`) `old_alias`/`new_alias` is set to the corresponding
resolved binary filename, which may itself be `None`. -/
theorem spec_c9_info_files_and_alias :
    ∀ (env : Env) (s : SettingsState),
    (∀ f, s.values "old_info_file" = Value.vStr f → f ≠ "" → env.isfile f = true →
      prepareOldInfo env s
        = Except.ok (s.set "old_binary_info" (Value.vStr (env.fileContents f))))
  ∧ (∀ f, s.values "old_info_file" = Value.vStr f → f ≠ "" → env.isfile f = false →
      prepareOldInfo env s
        = Except.error (SettingsError.infoFileNotFound
            ("Unable to find old info file '" ++ f ++ "'")))
  ∧ ((s.values "old_info_file").truthy = false →
      prepareOldInfo env s = Except.ok (s.set "old_binary_info" (Value.vStr "")))
  ∧ (∀ f, s.values "new_info_file" = Value.vStr f → f ≠ "" → env.isfile f = true →
      prepareNewInfo env s
        = Except.ok (s.set "new_binary_info" (Value.vStr (env.fileContents f))))
  ∧ (∀ f, s.values "new_info_file" = Value.vStr f → f ≠ "" → env.isfile f = false →
      prepareNewInfo env s
        = Except.error (SettingsError.infoFileNotFound
            ("Unable to find new info file '" ++ f ++ "'")))
  ∧ ((s.values "new_info_file").truthy = false →
      prepareNewInfo env s = Except.ok (s.set "new_binary_info" (Value.vStr "")))
  ∧ (s.values "old_alias" = Value.vNone →
      (prepareAlias s).values "old_alias" = s.values "old_binary_filename")
  ∧ (s.values "new_alias" = Value.vNone →
      (prepareAlias s).values "new_alias" = s.values "new_binary_filename") := by
  intro env s
  have hne1 : ("new_alias" : String) ≠ "old_alias" := by decide
  have hne2 : ("old_alias" : String) ≠ "new_alias" := by decide
  have hne3 : ("new_binary_filename" : String) ≠ "old_alias" := by decide
  refine ⟨?_, ?_, ?_, ?_, ?_, ?_, ?_, ?_⟩
  · intro f hv hf hisf
    unfold prepareOldInfo
    rw [hv]
    simp [Value.truthy, Value.strD, hf, hisf]
  · intro f hv hf hisf
    unfold prepareOldInfo
    rw [hv]
    simp [Value.truthy, Value.strD, hf, hisf]
  · intro hv
    unfold prepareOldInfo
    rw [hv]
    rfl
  · intro f hv hf hisf
    unfold prepareNewInfo
    rw [hv]
    simp [Value.truthy, Value.strD, hf, hisf]
  · intro f hv hf hisf
    unfold prepareNewInfo
    rw [hv]
    simp [Value.truthy, Value.strD, hf, hisf]
  · intro hv
    unfold prepareNewInfo
    rw [hv]
    rfl
  · intro hoa
    by_cases hna : s.values "new_alias" = Value.vNone
    · simp [prepareAlias, SettingsState.set, hoa, hna]
    · simp [prepareAlias, SettingsState.set, hoa, hna]
  · intro hna
    by_cases hoa : s.values "old_alias" = Value.vNone
    · simp [prepareAlias, SettingsState.set, hoa, hna]
    · simp [prepareAlias, SettingsState.set, hoa, hna]

/-- Witness for C9: a configured but missing old info file fails with the
`InfoFileNotFound` message; an unset info file yields the empty info
string; and an unset alias picks up the resolved binary filename. -/
theorem spec_c9_info_files_and_alias_witness :
    prepareOldInfo envNoTools (defaultSettings.set "old_info_file" (Value.vStr "info.txt"))
      = Except.error (SettingsError.infoFileNotFound
          ("Unable to find old info file '" ++ "info.txt" ++ "'"))
  ∧ prepareOldInfo envNoTools defaultSettings
      = Except.ok (defaultSettings.set "old_binary_info" (Value.vStr ""))
  ∧ (prepareAlias (defaultSettings.set "old_binary_filename"
        (Value.vStr "a.elf"))).values "old_alias"
      = Value.vStr "a.elf" := by
  refine ⟨?_, ?_, ?_⟩
  · exact (spec_c9_info_files_and_alias envNoTools
      (defaultSettings.set "old_info_file" (Value.vStr "info.txt"))).2.1 "info.txt"
      (by decide) (by decide) (by decide)
  · exact (spec_c9_info_files_and_alias envNoTools defaultSettings).2.2.1 (by decide)
  · have := ((spec_c9_info_files_and_alias envNoTools
        (defaultSettings.set "old_binary_filename" (Value.vStr "a.elf"))).2.2.2.2.2.2.1
        (by decide))
    exact this.trans (by decide)
